import Mathlib

/-!
Shallow embedding of the intlayer backend request pipeline:
the filter/pagination extractor
(`src/apps/backend/src/utils/filtersAndPagination/getFiltersAndPaginationFromBody.ts`),
the organization service (`src/apps/backend/src/services/organization.service.ts`)
and the tag controller (`src/apps/backend/src/controllers/tag.controller.ts`).

JavaScript numbers are modelled by `JSNum`: `NaN`, signed infinities, and an
exact integer payload for finite values.  Every finite number this pipeline
consumes or produces is integral (`parseInt` results, integer literals and
their sums/products), except the intermediate quotient inside
`Math.ceil(totalItems / pageSize)`, which is embedded as the single composite
operation `JSNum.jsCeilDiv`.  IEEE-754 rounding and negative zero are not
represented (negative zero is identified with zero).
-/

/-- A JavaScript number: `NaN`, `Infinity`/`-Infinity` (`inf true` / `inf false`),
or a finite integral value. -/
inductive JSNum where
  | nan : JSNum
  | inf (pos : Bool) : JSNum
  | num (v : ℤ) : JSNum
deriving DecidableEq, Repr

namespace JSNum

/-- JavaScript subtraction `a - b`. -/
def jsSub : JSNum → JSNum → JSNum
  | nan, _ => nan
  | _, nan => nan
  | inf p, inf q => if p = q then nan else inf p
  | inf p, num _ => inf p
  | num _, inf p => inf (!p)
  | num a, num b => num (a - b)

/-- JavaScript multiplication `a * b` (`Infinity * 0 = NaN`). -/
def jsMul : JSNum → JSNum → JSNum
  | nan, _ => nan
  | _, nan => nan
  | inf p, inf q => inf (p == q)
  | inf p, num a => if a = 0 then nan else inf (p == decide (0 < a))
  | num a, inf p => if a = 0 then nan else inf (p == decide (0 < a))
  | num a, num b => num (a * b)

/-- Ceiling of the exact quotient `a / b` of two integers (`b ≠ 0`), via
`⌈x⌉ = -⌊-x⌋` and Euclidean division by a positive divisor. -/
def ceilIntDiv (a b : ℤ) : ℤ :=
  if 0 < b then -((-a).ediv b) else -(a.ediv (-b))

/-- JavaScript `Math.ceil(a / b)` as one operation: division semantics
(`x / 0 = ±Infinity` for `x ≠ 0`, `0 / 0 = NaN`, `finite / Infinity = 0`,
`Infinity / Infinity = NaN`) followed by `Math.ceil` (identity on `NaN`,
infinities and integers; on a finite exact quotient it takes the ceiling). -/
def jsCeilDiv : JSNum → JSNum → JSNum
  | nan, _ => nan
  | _, nan => nan
  | inf _, inf _ => nan
  | inf p, num b => inf (p == decide (0 ≤ b))
  | num _, inf _ => num 0
  | num a, num b =>
      if b = 0 then (if a = 0 then nan else inf (decide (0 < a)))
      else num (ceilIntDiv a b)

end JSNum

/-- Longest prefix of decimal digits. -/
def takeDigits : List Char → List Char
  | [] => []
  | c :: cs => if c.isDigit then c :: takeDigits cs else []

/-- Value of a list of decimal digits. -/
def digitsToNat (cs : List Char) : Nat :=
  cs.foldl (fun acc c => acc * 10 + (c.toNat - 48)) 0

/-- JavaScript `parseInt(s, 10)`: skip leading whitespace, read an optional
sign, then the longest prefix of decimal digits; `NaN` when no digit follows.
(Exact where JavaScript would lose float precision on huge inputs.) -/
def parseInt10 (s : String) : JSNum :=
  let cs := s.data.dropWhile Char.isWhitespace
  let signAndDigits : Bool × List Char :=
    match cs with
    | '-' :: rest => (true, rest)
    | '+' :: rest => (false, rest)
    | rest => (false, rest)
  let ds := takeDigits signAndDigits.2
  if ds = [] then JSNum.nan
  else if signAndDigits.1 then JSNum.num (-(digitsToNat ds : ℤ))
  else JSNum.num (digitsToNat ds : ℤ)

/-- A value stored under a key of the request query: a string, a number, or
one of the other filter value shapes (`string[]`, `ObjectId`, `ObjectId[]`,
which the pagination resolution treats alike: neither `string` nor `number`). -/
inductive QueryValue where
  | str (s : String) : QueryValue
  | numV (n : JSNum) : QueryValue
  | strList (ss : List String) : QueryValue
  | oid (id : String) : QueryValue
  | oidList (ids : List String) : QueryValue
deriving DecidableEq, Repr

/-- A request query object, as an association list of its own enumerable keys
(a JavaScript object holds each key at most once). -/
def Query := List (String × QueryValue)

instance : DecidableEq Query := by
  unfold Query
  exact inferInstance

/-- Property destructuring `const { k } = q`: the value stored under `k`. -/
def lookupKey (q : Query) (k : String) : Option QueryValue :=
  (q.find? (fun kv => kv.1 = k)).map Prod.snd

/-- Rest destructuring `const { pageSize, page, ...filtersRequest } = q`. -/
def restWithoutPagination (q : Query) : Query :=
  q.filter (fun kv => kv.1 ≠ "pageSize" ∧ kv.1 ≠ "page")

def DEFAULT_PAGE_SIZE : JSNum := JSNum.num 1000
def DEFAULT_PAGE : JSNum := JSNum.num 1

/-- Result of `getFiltersAndPaginationFromBody`: filters, page, skip, pageSize
and the `getNumberOfPages` closure over the resolved page size. -/
structure FiltersAndPaginationResult where
  filters : Query
  page : JSNum
  skip : JSNum
  pageSize : JSNum
  getNumberOfPages : JSNum → JSNum

/-- `typeof request === 'string' / 'number'` resolution of a pagination field:
a string is `parseInt`-ed in base 10, a number is kept, anything else (absent
or another shape) leaves the default. -/
def resolvePaginationValue (request : Option QueryValue) (default : JSNum) : JSNum :=
  match request with
  | some (QueryValue.str s) => parseInt10 s
  | some (QueryValue.numV n) => n
  | _ => default

/-- Embedding of `getFiltersAndPaginationFromBody`.  `req.query` is `none` when
it is `undefined` (then `typeof query === 'object'` fails and the defaults are
kept); otherwise it is the query object. -/
def getFiltersAndPaginationFromBody (query : Option Query) : FiltersAndPaginationResult :=
  let resolved : Query × JSNum × JSNum :=
    match query with
    | some q =>
        let pageSizeRequest := lookupKey q "pageSize"
        let pageRequest := lookupKey q "page"
        let filtersRequest := restWithoutPagination q
        let pageSize := resolvePaginationValue pageSizeRequest DEFAULT_PAGE_SIZE
        let page := resolvePaginationValue pageRequest DEFAULT_PAGE
        let filters := if filtersRequest.length > 0 then filtersRequest else ([] : Query)
        (filters, pageSize, page)
    | none => (([] : Query), DEFAULT_PAGE_SIZE, DEFAULT_PAGE)
  let filters := resolved.1
  let pageSize := resolved.2.1
  let page := resolved.2.2
  let skip := JSNum.jsMul (JSNum.jsSub page (JSNum.num 1)) pageSize
  { filters := filters
    page := page
    skip := skip
    pageSize := pageSize
    getNumberOfPages := fun totalItems => JSNum.jsCeilDiv totalItems pageSize }

theorem ceil_intCast_div_pos (n d : ℤ) (hd : 0 < d) :
    ⌈(n : ℚ) / (d : ℚ)⌉ = -((-n).ediv d) := by
  have hd0 : ((d.toNat : ℕ) : ℤ) = d := Int.toNat_of_nonneg hd.le
  have h2 : ((d.toNat : ℕ) : ℚ) = (d : ℚ) := by
    exact_mod_cast congrArg (fun z : ℤ => (z : ℚ)) hd0
  have h1 : (n : ℚ) / (d : ℚ) = -(((-n : ℤ) : ℚ) / ((d.toNat : ℕ) : ℚ)) := by
    rw [h2]
    push_cast
    ring
  rw [h1, Int.ceil_neg, Rat.floor_intCast_div_natCast, hd0]
  rfl

theorem ceilIntDiv_eq_ceil (a b : ℤ) (hb : b ≠ 0) :
    JSNum.ceilIntDiv a b = ⌈(a : ℚ) / (b : ℚ)⌉ := by
  unfold JSNum.ceilIntDiv
  rcases hb.lt_or_lt with hneg | hpos
  · rw [if_neg (by omega)]
    have h1 : (a : ℚ) / (b : ℚ) = ((-a : ℤ) : ℚ) / (((-b : ℤ)) : ℚ) := by
      push_cast
      rw [div_neg, neg_div, neg_neg]
    rw [h1, ceil_intCast_div_pos (-a) (-b) (by omega), neg_neg]
  · rw [if_pos hpos, ceil_intCast_div_pos a b hpos]

theorem skip_is_page_sub_one_mul_pageSize (query : Option Query) :
    (getFiltersAndPaginationFromBody query).skip
      = JSNum.jsMul
          (JSNum.jsSub (getFiltersAndPaginationFromBody query).page (JSNum.num 1))
          (getFiltersAndPaginationFromBody query).pageSize := by
  cases query <;> rfl

theorem getNumberOfPages_is_jsCeilDiv_pageSize (query : Option Query) (t : JSNum) :
    (getFiltersAndPaginationFromBody query).getNumberOfPages t
      = JSNum.jsCeilDiv t (getFiltersAndPaginationFromBody query).pageSize := by
  cases query <;> rfl

/-- C1: whenever the resolved `page` and `pageSize` are (finite) numbers, the
extractor returns `skip = (page - 1) * pageSize`; in particular `page = 1`,
`pageSize = 1000` gives `skip = 0`, and `page = 3`, `pageSize = 10` gives
`skip = 20`. -/
theorem pagination_skip_formula :
    (∀ (query : Option Query) (p s : ℤ),
        (getFiltersAndPaginationFromBody query).page = JSNum.num p →
        (getFiltersAndPaginationFromBody query).pageSize = JSNum.num s →
        (getFiltersAndPaginationFromBody query).skip = JSNum.num ((p - 1) * s))
    ∧ (getFiltersAndPaginationFromBody
        (some [("page", QueryValue.numV (JSNum.num 1)),
               ("pageSize", QueryValue.numV (JSNum.num 1000))])).skip = JSNum.num 0
    ∧ (getFiltersAndPaginationFromBody
        (some [("page", QueryValue.numV (JSNum.num 3)),
               ("pageSize", QueryValue.numV (JSNum.num 10))])).skip = JSNum.num 20 := by
  refine ⟨?_, by decide, by decide⟩
  intro query p s hp hs
  rw [skip_is_page_sub_one_mul_pageSize, hp, hs]
  simp [JSNum.jsSub, JSNum.jsMul]

theorem pagination_skip_formula_witness :
    (getFiltersAndPaginationFromBody
      (some [("page", QueryValue.numV (JSNum.num 3)),
             ("pageSize", QueryValue.numV (JSNum.num 10))])).skip
      = JSNum.num ((3 - 1) * 10) :=
  pagination_skip_formula.1
    (some [("page", QueryValue.numV (JSNum.num 3)),
           ("pageSize", QueryValue.numV (JSNum.num 10))])
    3 10 (by decide) (by decide)

/-- C5: for an object query the returned filters are exactly the query with
the `page` and `pageSize` keys removed, unchanged otherwise; an absent `page`
resolves to the default 1 and an absent `pageSize` to the default 1000. -/
theorem filters_passthrough_and_defaults :
    ∀ q : Query,
      (getFiltersAndPaginationFromBody (some q)).filters
          = q.filter (fun kv => kv.1 ≠ "pageSize" ∧ kv.1 ≠ "page")
      ∧ (lookupKey q "page" = none →
          (getFiltersAndPaginationFromBody (some q)).page = JSNum.num 1)
      ∧ (lookupKey q "pageSize" = none →
          (getFiltersAndPaginationFromBody (some q)).pageSize = JSNum.num 1000) := by
  intro q
  refine ⟨?_, ?_, ?_⟩
  · have h : (getFiltersAndPaginationFromBody (some q)).filters
        = (if (restWithoutPagination q).length > 0 then restWithoutPagination q
           else ([] : Query)) := rfl
    have h0 : restWithoutPagination q
        = q.filter (fun kv => kv.1 ≠ "pageSize" ∧ kv.1 ≠ "page") := rfl
    rw [h, ← h0]
    by_cases hlen : (restWithoutPagination q).length > 0
    · rw [if_pos hlen]
    · rw [if_neg hlen]
      exact (List.length_eq_zero.mp (by omega)).symm
  · intro hnone
    have h : (getFiltersAndPaginationFromBody (some q)).page
        = resolvePaginationValue (lookupKey q "page") DEFAULT_PAGE := rfl
    rw [h, hnone]
    rfl
  · intro hnone
    have h : (getFiltersAndPaginationFromBody (some q)).pageSize
        = resolvePaginationValue (lookupKey q "pageSize") DEFAULT_PAGE_SIZE := rfl
    rw [h, hnone]
    rfl

theorem filters_passthrough_and_defaults_witness :
    (getFiltersAndPaginationFromBody (some [("key", QueryValue.str "x")])).filters
        = [("key", QueryValue.str "x")].filter
            (fun kv => kv.1 ≠ "pageSize" ∧ kv.1 ≠ "page")
    ∧ (getFiltersAndPaginationFromBody (some [("key", QueryValue.str "x")])).page
        = JSNum.num 1 :=
  ⟨(filters_passthrough_and_defaults [("key", QueryValue.str "x")]).1,
   (filters_passthrough_and_defaults [("key", QueryValue.str "x")]).2.1 (by decide)⟩

/-- C6: whenever the resolved `pageSize` is a nonzero (finite) number, the
returned `getNumberOfPages` computes the ceiling division
`⌈totalItems / pageSize⌉` for every non-negative integer `totalItems`. -/
theorem getNumberOfPages_ceiling_division :
    ∀ (query : Option Query) (s : ℤ) (t : ℕ),
      (getFiltersAndPaginationFromBody query).pageSize = JSNum.num s →
      s ≠ 0 →
      (getFiltersAndPaginationFromBody query).getNumberOfPages (JSNum.num t)
        = JSNum.num ⌈(t : ℚ) / (s : ℚ)⌉ := by
  intro query s t hs hs0
  rw [getNumberOfPages_is_jsCeilDiv_pageSize, hs]
  simp only [JSNum.jsCeilDiv]
  rw [if_neg hs0, ceilIntDiv_eq_ceil _ _ hs0]
  norm_cast

theorem getNumberOfPages_ceiling_division_witness :
    (getFiltersAndPaginationFromBody
      (some [("pageSize", QueryValue.numV (JSNum.num 10))])).getNumberOfPages
        (JSNum.num 25)
      = JSNum.num ⌈((25 : ℕ) : ℚ) / ((10 : ℤ) : ℚ)⌉ :=
  getNumberOfPages_ceiling_division
    (some [("pageSize", QueryValue.numV (JSNum.num 10))]) 10 25 (by decide) (by decide)

/-- C10: a `page` or `pageSize` supplied as a string is resolved by a base-10
`parseInt`; for the non-numeric string "abc" this parse is `NaN`, so the
returned `pageSize`, `skip` and every `getNumberOfPages` value are `NaN`
instead of the defaults. -/
theorem string_parse_and_nan_propagation :
    (∀ (q : Query) (s : String),
        lookupKey q "pageSize" = some (QueryValue.str s) →
        (getFiltersAndPaginationFromBody (some q)).pageSize = parseInt10 s)
    ∧ (∀ (q : Query) (s : String),
        lookupKey q "page" = some (QueryValue.str s) →
        (getFiltersAndPaginationFromBody (some q)).page = parseInt10 s)
    ∧ parseInt10 "abc" = JSNum.nan
    ∧ (getFiltersAndPaginationFromBody
        (some [("pageSize", QueryValue.str "abc")])).pageSize = JSNum.nan
    ∧ (getFiltersAndPaginationFromBody
        (some [("pageSize", QueryValue.str "abc")])).skip = JSNum.nan
    ∧ (getFiltersAndPaginationFromBody
        (some [("pageSize", QueryValue.str "abc")])).getNumberOfPages (JSNum.num 5)
        = JSNum.nan := by
  refine ⟨?_, ?_, by decide, by decide, by decide, by decide⟩
  · intro q s hq
    have h : (getFiltersAndPaginationFromBody (some q)).pageSize
        = resolvePaginationValue (lookupKey q "pageSize") DEFAULT_PAGE_SIZE := rfl
    rw [h, hq]
    rfl
  · intro q s hq
    have h : (getFiltersAndPaginationFromBody (some q)).page
        = resolvePaginationValue (lookupKey q "page") DEFAULT_PAGE := rfl
    rw [h, hq]
    rfl

theorem string_parse_and_nan_propagation_witness :
    (getFiltersAndPaginationFromBody
      (some [("pageSize", QueryValue.str "50")])).pageSize = parseInt10 "50" :=
  string_parse_and_nan_propagation.1 [("pageSize", QueryValue.str "50")] "50" (by decide)

/-! ## Organization service (`organization.service.ts`) -/

/-- Context payload attached to a `GenericError` (`ObjectId`s are modelled as
strings, matching the `String(...)` comparisons of the controllers). -/
inductive ErrorContext where
  | organizationIdCtx (organizationId : String) : ErrorContext
  | errorsCtx (errors : List (String × String)) : ErrorContext
  | organizationIdErrorsCtx (organizationId : String)
      (errors : List (String × String)) : ErrorContext
  | messageCtx (error : String) : ErrorContext
  | tagIdCtx (tagId : String) : ErrorContext
deriving DecidableEq, Repr

/-- `GenericError(code, context)` as thrown by the services. -/
structure GenericError where
  code : String
  context : ErrorContext
deriving DecidableEq, Repr

/-- A plan embedded in an organization.  Fields are optional so the same shape
serves for `Plan`, `Partial<Plan>` and the empty `ObjectLiteral` fallback; a key
present with value `undefined` is identified with an absent key. -/
structure Plan where
  type : Option String := Option.none
  status : Option String := Option.none
  period : Option String := Option.none
deriving DecidableEq, Repr

/-- An organization document (spec section 3: id, name, creatorId, membersIds,
adminsIds, plan). -/
structure OrganizationDocument where
  id : String
  name : String
  creatorId : String
  membersIds : List String
  adminsIds : List String
  plan : Option Plan
deriving DecidableEq, Repr

/-- The organization collection, in insertion order; `findById` returns the
first (in MongoDB: unique) document with the given `_id`. -/
abbrev OrgDb := List OrganizationDocument

/-- `OrganizationModel.findById`: the first (in MongoDB: unique) document whose
`_id` matches, or `null`. -/
def findFirstById (db : OrgDb) (id : String) : Option OrganizationDocument :=
  match db with
  | [] => Option.none
  | o :: os => if o.id = id then some o else findFirstById os id

/-- Embedding of `getOrganizationById`: `findById` then throw
`ORGANIZATION_NOT_FOUND` with context payload containing the organization id
when no document matches. -/
def getOrganizationById (db : OrgDb) (organizationId : String) :
    Except GenericError OrganizationDocument :=
  match findFirstById db organizationId with
  | some organization => Except.ok organization
  | none =>
      Except.error
        { code := "ORGANIZATION_NOT_FOUND"
          context := ErrorContext.organizationIdCtx organizationId }

/-- `OrganizationCreationData`, plus the fields the creation defaults can be
overridden by (object spread in `createOrganization` lets any field supplied by
the data win over the defaults); an absent field is `none`. -/
structure OrganizationCreationData where
  name : Option String := Option.none
  creatorId : Option String := Option.none
  membersIds : Option (List String) := Option.none
  adminsIds : Option (List String) := Option.none
deriving DecidableEq, Repr

/-- Modelled from the spec: `validateOrganization` lives in
`src/utils/validation/validateOrganization.ts`, which is not included under
`src/`.  The spec describes per-field validation with `name` as the required
field (claim sources: validation of the required `name` field), so the model
checks each requested key and reports an error entry for a missing or empty
`name`; other keys produce no entry. -/
def validateOrganization (organization : OrganizationCreationData)
    (keys : List String) : List (String × String) :=
  keys.filterMap fun k =>
    if k = "name" then
      match organization.name with
      | Option.none => some ("name", "Name is required")
      | some n => if n = "" then some ("name", "Name is required") else Option.none
    else Option.none

/-- Embedding of `createOrganization`: validate the `name` field, throw
`ORGANIZATION_INVALID_FIELDS` when there are errors, otherwise insert a
document built from the defaults `creatorId = userId`,
`membersIds = [userId]`, `adminsIds = [userId]` overridden by any field the
creation data supplies.  The database is passed explicitly; `newId` stands for
the `_id` MongoDB generates.  (The model's insert does not fail, so the
`ORGANIZATION_CREATION_FAILED` catch branch is unreachable here.) -/
def createOrganization (organization : OrganizationCreationData)
    (userId : String) (db : OrgDb) (newId : String) :
    Except GenericError OrganizationDocument × OrgDb :=
  let errors := validateOrganization organization ["name"]
  if errors.length > 0 then
    (Except.error
      { code := "ORGANIZATION_INVALID_FIELDS"
        context := ErrorContext.errorsCtx errors }, db)
  else
    let result : OrganizationDocument :=
      { id := newId
        name := organization.name.getD ""
        creatorId := organization.creatorId.getD userId
        membersIds := organization.membersIds.getD [userId]
        adminsIds := organization.adminsIds.getD [userId]
        plan := Option.none }
    (Except.ok result, db ++ [result])

/-- MongoDB `updateOne({_id: id}, ...)`: rewrite the first matching document,
leave the rest untouched. -/
def updateFirstById (db : OrgDb) (id : String)
    (f : OrganizationDocument → OrganizationDocument) : OrgDb :=
  match db with
  | [] => []
  | o :: os => if o.id = id then f o :: os else o :: updateFirstById os id f

/-- Object spread `{ ...prevPlan, ...plan }`: a field of the update, when
present, wins over the previous plan's field. -/
def mergePlan (prevPlan plan : Plan) : Plan :=
  { type := plan.type.orElse (fun _ => prevPlan.type)
    status := plan.status.orElse (fun _ => prevPlan.status)
    period := plan.period.orElse (fun _ => prevPlan.period) }

/-- Embedding of `updatePlan`: take the organization argument's previous plan
(`organization.plan ?? ObjectLiteral`; the `toObject` conversion is the identity
here), `$set` the shallow merge as the stored plan of the first document whose
`_id` matches, throw `ORGANIZATION_UPDATE_FAILED` when none matched, and
re-read the organization. -/
def updatePlan (db : OrgDb) (organization : OrganizationDocument)
    (plan : Plan) : Except GenericError OrganizationDocument × OrgDb :=
  let prevPlan := organization.plan.getD {}
  let db2 := updateFirstById db organization.id
    (fun o => { o with plan := some (mergePlan prevPlan plan) })
  match findFirstById db organization.id with
  | none =>
      (Except.error
        { code := "ORGANIZATION_UPDATE_FAILED"
          context := ErrorContext.organizationIdCtx organization.id }, db2)
  | some _ => (getOrganizationById db2 organization.id, db2)

theorem findFirstById_updateFirstById (id : String)
    (f : OrganizationDocument → OrganizationDocument)
    (hid : ∀ o, (f o).id = o.id) :
    ∀ (db : OrgDb) (d : OrganizationDocument),
      findFirstById db id = some d →
      findFirstById (updateFirstById db id f) id = some (f d) := by
  intro db
  induction db with
  | nil =>
      intro d h
      simp [findFirstById] at h
  | cons o os ih =>
      intro d h
      rw [findFirstById] at h
      by_cases ho : o.id = id
      · rw [if_pos ho] at h
        injection h with h1
        subst h1
        rw [updateFirstById, if_pos ho, findFirstById, if_pos (by rw [hid]; exact ho)]
      · rw [if_neg ho] at h
        rw [updateFirstById, if_neg ho, findFirstById, if_neg ho]
        exact ih d h

/-- C7: `getOrganizationById` returns the matching document when one exists,
otherwise throws the named constant `ORGANIZATION_NOT_FOUND` carrying the
context payload with the organization id; its result is always one of the two,
never a null organization. -/
theorem getOrganizationById_found_or_named_error :
    ∀ (db : OrgDb) (organizationId : String),
      (∀ org, findFirstById db organizationId = some org →
          getOrganizationById db organizationId = Except.ok org)
      ∧ (findFirstById db organizationId = Option.none →
          getOrganizationById db organizationId
            = Except.error
                { code := "ORGANIZATION_NOT_FOUND"
                  context := ErrorContext.organizationIdCtx organizationId })
      ∧ ((∃ org, getOrganizationById db organizationId = Except.ok org)
          ∨ getOrganizationById db organizationId
            = Except.error
                { code := "ORGANIZATION_NOT_FOUND"
                  context := ErrorContext.organizationIdCtx organizationId }) := by
  intro db organizationId
  refine ⟨?_, ?_, ?_⟩
  · intro org h
    simp [getOrganizationById, h]
  · intro h
    simp [getOrganizationById, h]
  · unfold getOrganizationById
    cases h : findFirstById db organizationId with
    | some org => exact Or.inl ⟨org, rfl⟩
    | none => exact Or.inr rfl

theorem getOrganizationById_found_or_named_error_witness :
    getOrganizationById
        [{ id := "org1", name := "Acme", creatorId := "u1",
           membersIds := ["u1"], adminsIds := ["u1"], plan := Option.none }] "org1"
      = Except.ok
          { id := "org1", name := "Acme", creatorId := "u1",
            membersIds := ["u1"], adminsIds := ["u1"], plan := Option.none }
    ∧ getOrganizationById ([] : OrgDb) "org2"
      = Except.error
          { code := "ORGANIZATION_NOT_FOUND"
            context := ErrorContext.organizationIdCtx "org2" } :=
  ⟨(getOrganizationById_found_or_named_error
      [{ id := "org1", name := "Acme", creatorId := "u1",
         membersIds := ["u1"], adminsIds := ["u1"], plan := Option.none }] "org1").1
      _ (by decide),
   (getOrganizationById_found_or_named_error ([] : OrgDb) "org2").2.1 (by decide)⟩

/-- C8: a successfully created organization records the creating user as
`creatorId` and as the sole entry of `membersIds` and `adminsIds` whenever the
creation data supplies none of those fields, and a failed validation of the
required `name` field throws `ORGANIZATION_INVALID_FIELDS` with the database
unchanged (no document created). -/
theorem createOrganization_creator_defaults_and_validation :
    ∀ (data : OrganizationCreationData) (userId : String) (db : OrgDb)
      (newId : String),
      (validateOrganization data ["name"] = [] →
        data.creatorId = Option.none → data.membersIds = Option.none →
        data.adminsIds = Option.none →
        ∃ doc, createOrganization data userId db newId
            = (Except.ok doc, db ++ [doc])
          ∧ doc.creatorId = userId ∧ doc.membersIds = [userId]
          ∧ doc.adminsIds = [userId])
      ∧ (validateOrganization data ["name"] ≠ [] →
        createOrganization data userId db newId
          = (Except.error
              { code := "ORGANIZATION_INVALID_FIELDS"
                context := ErrorContext.errorsCtx (validateOrganization data ["name"]) },
             db)) := by
  intro data userId db newId
  constructor
  · intro hval hc hm ha
    refine ⟨{ id := newId, name := data.name.getD "", creatorId := userId,
              membersIds := [userId], adminsIds := [userId],
              plan := Option.none }, ?_, rfl, rfl, rfl⟩
    simp [createOrganization, hval, hc, hm, ha]
  · intro hval
    have hlen : (validateOrganization data ["name"]).length > 0 := by
      cases h : validateOrganization data ["name"] with
      | nil => exact absurd h hval
      | cons a t => simp
    unfold createOrganization
    rw [if_pos hlen]

theorem createOrganization_creator_defaults_and_validation_witness :
    (∃ doc,
        createOrganization { name := some "Acme" } "u1" ([] : OrgDb) "o1"
          = (Except.ok doc, ([] : OrgDb) ++ [doc])
        ∧ doc.creatorId = "u1" ∧ doc.membersIds = ["u1"] ∧ doc.adminsIds = ["u1"])
    ∧ createOrganization { name := some "" } "u1" ([] : OrgDb) "o1"
        = (Except.error
            { code := "ORGANIZATION_INVALID_FIELDS"
              context := ErrorContext.errorsCtx
                (validateOrganization { name := some "" } ["name"]) },
           ([] : OrgDb)) :=
  ⟨(createOrganization_creator_defaults_and_validation
      { name := some "Acme" } "u1" ([] : OrgDb) "o1").1
      (by decide) rfl rfl rfl,
   (createOrganization_creator_defaults_and_validation
      { name := some "" } "u1" ([] : OrgDb) "o1").2 (by decide)⟩

/-- C9: `updatePlan` stores as the organization's plan the shallow merge of the
previous plan with the partial update — a field absent from the update keeps
its prior value, a field present takes the new value — and modifies no other
field of the stored organization document. -/
theorem updatePlan_shallow_merge_frame :
    ∀ (db : OrgDb) (org : OrganizationDocument) (p : Plan)
      (d : OrganizationDocument),
      findFirstById db org.id = some d →
      ∃ u db2,
        updatePlan db org p = (Except.ok u, db2)
          ∧ (∃ pl, u.plan = some pl
              ∧ (p.type = Option.none → pl.type = (org.plan.getD {}).type)
              ∧ (∀ v, p.type = some v → pl.type = some v)
              ∧ (p.status = Option.none → pl.status = (org.plan.getD {}).status)
              ∧ (∀ v, p.status = some v → pl.status = some v)
              ∧ (p.period = Option.none → pl.period = (org.plan.getD {}).period)
              ∧ (∀ v, p.period = some v → pl.period = some v))
          ∧ u.id = d.id ∧ u.name = d.name ∧ u.creatorId = d.creatorId
          ∧ u.membersIds = d.membersIds ∧ u.adminsIds = d.adminsIds := by
  intro db org p d h
  have hid : ∀ o : OrganizationDocument,
      ({ o with plan := some (mergePlan (org.plan.getD {}) p) } :
          OrganizationDocument).id = o.id :=
    fun o => rfl
  have h2 := findFirstById_updateFirstById org.id _ hid db d h
  refine ⟨{ d with plan := some (mergePlan (org.plan.getD {}) p) },
          updateFirstById db org.id
            (fun o => { o with plan := some (mergePlan (org.plan.getD {}) p) }),
          ?_,
          ⟨mergePlan (org.plan.getD {}) p, rfl, ?_, ?_, ?_, ?_, ?_, ?_⟩,
          rfl, rfl, rfl, rfl, rfl⟩
  · simp only [updatePlan, getOrganizationById, h, h2]
  · intro ht
    simp [mergePlan, ht, Option.orElse]
  · intro v ht
    simp [mergePlan, ht, Option.orElse]
  · intro ht
    simp [mergePlan, ht, Option.orElse]
  · intro v ht
    simp [mergePlan, ht, Option.orElse]
  · intro ht
    simp [mergePlan, ht, Option.orElse]
  · intro v ht
    simp [mergePlan, ht, Option.orElse]

theorem updatePlan_shallow_merge_frame_witness :
    ∃ u db2,
      updatePlan
          [{ id := "org1", name := "Acme", creatorId := "u1",
             membersIds := ["u1"], adminsIds := ["u1"],
             plan := some { type := some "FREE", status := some "active" } }]
          { id := "org1", name := "Acme", creatorId := "u1",
            membersIds := ["u1"], adminsIds := ["u1"],
            plan := some { type := some "FREE", status := some "active" } }
          { status := some "canceled" }
        = (Except.ok u, db2)
        ∧ (∃ pl, u.plan = some pl
            ∧ ((Plan.mk (some "FREE") (some "active") Option.none).type.getD "" = "FREE" →
                pl.type = ((some (Plan.mk (some "FREE") (some "active") Option.none) : Option Plan).getD {}).type)
            ∧ pl.status = some "canceled") := by
  obtain ⟨u, db2, h1, ⟨pl, hpl, htn, hts, hsn, hss, hpn, hps⟩, hrest⟩ :=
    updatePlan_shallow_merge_frame
      [{ id := "org1", name := "Acme", creatorId := "u1",
         membersIds := ["u1"], adminsIds := ["u1"],
         plan := some { type := some "FREE", status := some "active" } }]
      { id := "org1", name := "Acme", creatorId := "u1",
        membersIds := ["u1"], adminsIds := ["u1"],
        plan := some { type := some "FREE", status := some "active" } }
      { status := some "canceled" }
      { id := "org1", name := "Acme", creatorId := "u1",
        membersIds := ["u1"], adminsIds := ["u1"],
        plan := some { type := some "FREE", status := some "active" } }
      (by decide)
  exact ⟨u, db2, h1, ⟨pl, hpl, fun _ => htn rfl, hss "canceled" rfl⟩⟩

/-! ## Tag controller (`tag.controller.ts`) -/

/-- Session user, as the controllers consume it (`user.id`). -/
structure User where
  id : String
deriving DecidableEq, Repr

/-- Session project, as the controllers consume it (`project.id`). -/
structure Project where
  id : String
deriving DecidableEq, Repr

/-- A tag document (spec section 3: id, key, name, description, instructions,
organizationId, projectId, creatorId; ids as strings, matching the
`String(...)` comparisons).  A string field the creation left absent is
modelled as the empty string. -/
structure Tag where
  id : String
  key : String
  name : String
  description : String
  instructions : String
  organizationId : String
  projectId : String
  creatorId : String
deriving DecidableEq, Repr

/-- The tag collection, in insertion order. -/
abbrev TagDb := List Tag

/-- `res.locals` session data available to the tag controllers. -/
structure ResLocals where
  user : Option User
  organization : Option OrganizationDocument
  project : Option Project
  roles : List String
deriving DecidableEq, Repr

/-- The context `{ ...res.locals, targetTags }` handed to a permission check. -/
structure PermissionContext where
  locals : ResLocals
  targetTags : List Tag
deriving DecidableEq, Repr

/-- The shape of `hasPermission(roles, action)(context)` (spec section 4.2:
the implementation is not shown; the controllers only consume the boolean
verdict, so the check is an arbitrary function of this type). -/
def HasPermission : Type :=
  List String → String → PermissionContext → Bool

/-- A response the controller sends, in order: a generic named error
(`ErrorHandler.handleGenericErrorResponse`), a caught thrown error
(`ErrorHandler.handleAppErrorResponse`), or the JSON success envelope whose
data is the mapped tag (the mapper is the identity on the modelled fields). -/
inductive TagResponse where
  | genericError (code : String) : TagResponse
  | appError (e : GenericError) : TagResponse
  | jsonTag (tag : Tag) : TagResponse
deriving DecidableEq, Repr

/-- A call into the tag service, recorded in call order. -/
inductive ServiceCall where
  | getTagByIdCall (tagId : String) : ServiceCall
  | createTagCall (tag : Tag) : ServiceCall
  | updateTagByIdCall (tagId : String) : ServiceCall
  | deleteTagByIdCall (tagId : String) : ServiceCall
deriving DecidableEq, Repr

/-- Whether a service call mutates the tag collection. -/
def mutatingCall : ServiceCall → Bool
  | ServiceCall.createTagCall _ => true
  | ServiceCall.updateTagByIdCall _ => true
  | ServiceCall.deleteTagByIdCall _ => true
  | ServiceCall.getTagByIdCall _ => false

/-- The first (in MongoDB: unique) tag whose `_id` matches, or `null`. -/
def findFirstTagById (db : TagDb) (tagId : String) : Option Tag :=
  match db with
  | [] => Option.none
  | t :: ts => if t.id = tagId then some t else findFirstTagById ts tagId

/-- Modelled from the spec: `tagService.getTagById` (tag.service.ts is not
included under src/).  Spec section 4.3: each domain operation throws a
specifically named error constant rather than returning a result type, so the
lookup returns the matching tag or throws a named tag error. -/
def getTagById (db : TagDb) (tagId : String) : Except GenericError Tag :=
  match findFirstTagById db tagId with
  | some t => Except.ok t
  | none =>
      Except.error { code := "TAG_NOT_FOUND", context := ErrorContext.tagIdCtx tagId }

/-- Modelled from the spec: `tagService.createTag` inserts the document;
`newId` stands for the `_id` the database generates. -/
def createTag (db : TagDb) (tag : Tag) (newId : String) : Tag × TagDb :=
  let created := { tag with id := newId }
  (created, db ++ [created])

/-- `UpdateTagBody = Partial<TagData>`: the fields `updateTag` forwards. -/
structure UpdateTagBody where
  name : Option String := Option.none
  key : Option String := Option.none
  description : Option String := Option.none
  instructions : Option String := Option.none
deriving DecidableEq, Repr

/-- Rewrite the first tag whose `_id` matches. -/
def updateFirstTagById (db : TagDb) (tagId : String) (u : Tag) : TagDb :=
  match db with
  | [] => []
  | t :: ts => if t.id = tagId then u :: ts else t :: updateFirstTagById ts tagId u

/-- Modelled from the spec: `tagService.updateTagById` sets the present fields
of the first matching document and throws a named tag error when none
matches. -/
def updateTagById (db : TagDb) (tagId : String) (body : UpdateTagBody) :
    Except GenericError Tag × TagDb :=
  match findFirstTagById db tagId with
  | none =>
      (Except.error { code := "TAG_NOT_FOUND", context := ErrorContext.tagIdCtx tagId },
       db)
  | some t =>
      let updated := { t with
        name := body.name.getD t.name
        key := body.key.getD t.key
        description := body.description.getD t.description
        instructions := body.instructions.getD t.instructions }
      (Except.ok updated, updateFirstTagById db tagId updated)

/-- Modelled from the spec: `tagService.deleteTagById` removes the first
matching document and returns it, or returns `null` when none matches. -/
def deleteTagById (db : TagDb) (tagId : String) : Option Tag × TagDb :=
  match db with
  | [] => (Option.none, [])
  | t :: ts =>
      if t.id = tagId then (some t, ts)
      else
        let r := deleteTagById ts tagId
        (r.1, t :: r.2)

/-- `TagCreationData`: an optional field, when present, overrides the session
default in the spread `{ creatorId: ..., organizationId: ..., projectId: ...,
...tagData }`. -/
structure TagCreationData where
  key : Option String := Option.none
  name : Option String := Option.none
  description : Option String := Option.none
  instructions : Option String := Option.none
  creatorId : Option String := Option.none
  organizationId : Option String := Option.none
  projectId : Option String := Option.none
deriving DecidableEq, Repr

/-- The `TagData` literal `addTag` builds:
`{ creatorId: user.id, organizationId: organization.id, projectId: project.id,
...tagData }` (a spread of an undefined body is a no-op; `_id` is not set). -/
def buildTagData (user : User) (organization : OrganizationDocument)
    (project : Project) (tagData : Option TagCreationData) : Tag :=
  let td := tagData.getD {}
  { id := ""
    key := td.key.getD ""
    name := td.name.getD ""
    description := td.description.getD ""
    instructions := td.instructions.getD ""
    creatorId := td.creatorId.getD user.id
    organizationId := td.organizationId.getD organization.id
    projectId := td.projectId.getD project.id }

/-- Embedding of `addTag`.  The result lists the responses sent (in order),
the tag collection afterwards, and the service calls made.  Note the
missing-`tagData` branch sends its error response without returning. -/
def addTag (hasPermission : HasPermission) (locals : ResLocals)
    (tagData : Option TagCreationData) (db : TagDb) (newId : String) :
    List TagResponse × TagDb × List ServiceCall :=
  match locals.user with
  | Option.none => ([TagResponse.genericError "USER_NOT_DEFINED"], db, [])
  | some user =>
    match locals.organization with
    | Option.none => ([TagResponse.genericError "ORGANIZATION_NOT_DEFINED"], db, [])
    | some organization =>
      match locals.project with
      | Option.none => ([TagResponse.genericError "PROJECT_NOT_DEFINED"], db, [])
      | some project =>
        let pre : List TagResponse :=
          match tagData with
          | Option.none => [TagResponse.genericError "PROJECT_DATA_NOT_FOUND"]
          | some _ => []
        let tag := buildTagData user organization project tagData
        if ¬ hasPermission locals.roles "tag:admin"
            { locals := locals, targetTags := [tag] } then
          (pre ++ [TagResponse.genericError "PERMISSION_DENIED"], db, [])
        else
          let created := createTag db tag newId
          (pre ++ [TagResponse.jsonTag created.1], created.2,
           [ServiceCall.createTagCall tag])

/-- Embedding of `updateTag`. -/
def updateTag (hasPermission : HasPermission) (locals : ResLocals)
    (tagId : String) (body : UpdateTagBody) (db : TagDb) :
    List TagResponse × TagDb × List ServiceCall :=
  match locals.user with
  | Option.none => ([TagResponse.genericError "USER_NOT_DEFINED"], db, [])
  | some _user =>
    match locals.organization with
    | Option.none => ([TagResponse.genericError "ORGANIZATION_NOT_DEFINED"], db, [])
    | some organization =>
      match getTagById db tagId with
      | Except.error e =>
          ([TagResponse.appError e], db, [ServiceCall.getTagByIdCall tagId])
      | Except.ok tagToDelete =>
        if ¬ hasPermission locals.roles "tag:write"
            { locals := locals, targetTags := [tagToDelete] } then
          ([TagResponse.genericError "PERMISSION_DENIED"], db,
           [ServiceCall.getTagByIdCall tagId])
        else if tagToDelete.organizationId ≠ organization.id then
          ([TagResponse.genericError "TAG_NOT_IN_ORGANIZATION"], db,
           [ServiceCall.getTagByIdCall tagId])
        else
          match updateTagById db tagId body with
          | (Except.error e, db2) =>
              ([TagResponse.appError e], db2,
               [ServiceCall.getTagByIdCall tagId, ServiceCall.updateTagByIdCall tagId])
          | (Except.ok updatedTag, db2) =>
              ([TagResponse.jsonTag updatedTag], db2,
               [ServiceCall.getTagByIdCall tagId, ServiceCall.updateTagByIdCall tagId])

/-- Embedding of `deleteTag` (`!tagId`: an absent or empty tag id is falsy). -/
def deleteTag (hasPermission : HasPermission) (locals : ResLocals)
    (tagId : Option String) (db : TagDb) :
    List TagResponse × TagDb × List ServiceCall :=
  match locals.user with
  | Option.none => ([TagResponse.genericError "USER_NOT_DEFINED"], db, [])
  | some _user =>
    match locals.organization with
    | Option.none => ([TagResponse.genericError "ORGANIZATION_NOT_DEFINED"], db, [])
    | some organization =>
      match tagId with
      | Option.none => ([TagResponse.genericError "TAG_ID_NOT_FOUND"], db, [])
      | some tid =>
        if tid = "" then ([TagResponse.genericError "TAG_ID_NOT_FOUND"], db, [])
        else
          match getTagById db tid with
          | Except.error e =>
              ([TagResponse.appError e], db, [ServiceCall.getTagByIdCall tid])
          | Except.ok tagToDelete =>
            if ¬ hasPermission locals.roles "tag:admin"
                { locals := locals, targetTags := [tagToDelete] } then
              ([TagResponse.genericError "PERMISSION_DENIED"], db,
               [ServiceCall.getTagByIdCall tid])
            else if tagToDelete.organizationId ≠ organization.id then
              ([TagResponse.genericError "TAG_NOT_IN_ORGANIZATION"], db,
               [ServiceCall.getTagByIdCall tid])
            else
              match deleteTagById db tid with
              | (Option.none, db2) =>
                  ([TagResponse.genericError "TAG_NOT_FOUND"], db2,
                   [ServiceCall.getTagByIdCall tid, ServiceCall.deleteTagByIdCall tid])
              | (some deletedTag, db2) =>
                  ([TagResponse.jsonTag deletedTag], db2,
                   [ServiceCall.getTagByIdCall tid, ServiceCall.deleteTagByIdCall tid])

/-- A permission check that always allows (for concrete instantiation). -/
def permAllow : HasPermission := fun _ _ _ => true

/-- A permission check that always denies (for concrete instantiation). -/
def permDeny : HasPermission := fun _ _ _ => false

def sampleUser : User := { id := "u1" }

def sampleOrg : OrganizationDocument :=
  { id := "org1", name := "Acme", creatorId := "u1",
    membersIds := ["u1"], adminsIds := ["u1"], plan := Option.none }

def sampleProject : Project := { id := "p1" }

/-- A stored tag belonging to a different organization than `sampleOrg`. -/
def foreignTag : Tag :=
  { id := "t1", key := "k", name := "n", description := "d",
    instructions := "i", organizationId := "org2", projectId := "p1",
    creatorId := "u9" }

/-- A stored tag belonging to `sampleOrg`. -/
def ownTag : Tag :=
  { id := "t2", key := "k2", name := "n2", description := "d2",
    instructions := "i2", organizationId := "org1", projectId := "p1",
    creatorId := "u1" }

/-- C2: in `deleteTag` and likewise `updateTag`, when the fetched tag's
organizationId differs from the caller's organization id (compared as
strings) and the permission check passes, the handler responds
`TAG_NOT_IN_ORGANIZATION` and makes no delete (respectively update) service
call: the only service call is the fetch and the stored tags are unchanged. -/
theorem tag_not_in_organization_guard :
    ∀ (hasPermission : HasPermission) (u : User) (org : OrganizationDocument)
      (proj : Option Project) (roles : List String) (tid : String)
      (body : UpdateTagBody) (db : TagDb) (tagFound : Tag),
      getTagById db tid = Except.ok tagFound →
      tagFound.organizationId ≠ org.id →
      tid ≠ "" →
      (hasPermission roles "tag:admin"
          { locals := { user := some u, organization := some org,
                        project := proj, roles := roles },
            targetTags := [tagFound] } = true →
        deleteTag hasPermission
            { user := some u, organization := some org,
              project := proj, roles := roles }
            (some tid) db
          = ([TagResponse.genericError "TAG_NOT_IN_ORGANIZATION"], db,
             [ServiceCall.getTagByIdCall tid]))
      ∧ (hasPermission roles "tag:write"
          { locals := { user := some u, organization := some org,
                        project := proj, roles := roles },
            targetTags := [tagFound] } = true →
        updateTag hasPermission
            { user := some u, organization := some org,
              project := proj, roles := roles }
            tid body db
          = ([TagResponse.genericError "TAG_NOT_IN_ORGANIZATION"], db,
             [ServiceCall.getTagByIdCall tid])) := by
  intro hp u org proj roles tid body db tagFound hget horg htid
  constructor
  · intro hperm
    simp [deleteTag, htid, hget, hperm, horg]
  · intro hperm
    simp [updateTag, hget, hperm, horg]

theorem tag_not_in_organization_guard_witness :
    deleteTag permAllow
        { user := some sampleUser, organization := some sampleOrg,
          project := some sampleProject, roles := ["admin"] }
        (some "t1") [foreignTag]
      = ([TagResponse.genericError "TAG_NOT_IN_ORGANIZATION"], [foreignTag],
         [ServiceCall.getTagByIdCall "t1"])
    ∧ updateTag permAllow
        { user := some sampleUser, organization := some sampleOrg,
          project := some sampleProject, roles := ["admin"] }
        "t1" { name := some "renamed" } [foreignTag]
      = ([TagResponse.genericError "TAG_NOT_IN_ORGANIZATION"], [foreignTag],
         [ServiceCall.getTagByIdCall "t1"]) :=
  ⟨(tag_not_in_organization_guard permAllow sampleUser sampleOrg
      (some sampleProject) ["admin"] "t1" { name := some "renamed" }
      [foreignTag] foreignTag rfl (by decide) (by decide)).1 rfl,
   (tag_not_in_organization_guard permAllow sampleUser sampleOrg
      (some sampleProject) ["admin"] "t1" { name := some "renamed" }
      [foreignTag] foreignTag rfl (by decide) (by decide)).2 rfl⟩

/-- C3: each tag mutation handler (`addTag`, `updateTag`, `deleteTag`), when
the permission check applied to its request context returns false, responds
`PERMISSION_DENIED`, makes no mutating service call (no `createTag`,
`updateTagById`, `deleteTagById`), and leaves the stored tags unchanged. -/
theorem permission_denied_no_mutation :
    ∀ (hasPermission : HasPermission) (u : User) (org : OrganizationDocument)
      (proj : Project) (roles : List String) (tagData : Option TagCreationData)
      (newId : String) (tid : String) (body : UpdateTagBody) (db : TagDb)
      (tagFound : Tag),
      (hasPermission roles "tag:admin"
          { locals := { user := some u, organization := some org,
                        project := some proj, roles := roles },
            targetTags := [buildTagData u org proj tagData] } = false →
        ∃ responses calls,
          addTag hasPermission
              { user := some u, organization := some org,
                project := some proj, roles := roles }
              tagData db newId
            = (responses, db, calls)
          ∧ TagResponse.genericError "PERMISSION_DENIED" ∈ responses
          ∧ ∀ c ∈ calls, mutatingCall c = false)
      ∧ (getTagById db tid = Except.ok tagFound →
         hasPermission roles "tag:write"
            { locals := { user := some u, organization := some org,
                          project := some proj, roles := roles },
              targetTags := [tagFound] } = false →
        updateTag hasPermission
            { user := some u, organization := some org,
              project := some proj, roles := roles }
            tid body db
          = ([TagResponse.genericError "PERMISSION_DENIED"], db,
             [ServiceCall.getTagByIdCall tid])
          ∧ mutatingCall (ServiceCall.getTagByIdCall tid) = false)
      ∧ (tid ≠ "" → getTagById db tid = Except.ok tagFound →
         hasPermission roles "tag:admin"
            { locals := { user := some u, organization := some org,
                          project := some proj, roles := roles },
              targetTags := [tagFound] } = false →
        deleteTag hasPermission
            { user := some u, organization := some org,
              project := some proj, roles := roles }
            (some tid) db
          = ([TagResponse.genericError "PERMISSION_DENIED"], db,
             [ServiceCall.getTagByIdCall tid])
          ∧ mutatingCall (ServiceCall.getTagByIdCall tid) = false) := by
  intro hp u org proj roles tagData newId tid body db tagFound
  refine ⟨?_, ?_, ?_⟩
  · intro hperm
    cases tagData with
    | none =>
        exact ⟨[TagResponse.genericError "PROJECT_DATA_NOT_FOUND",
                TagResponse.genericError "PERMISSION_DENIED"], [],
               by simp [addTag, hperm], by simp, by simp⟩
    | some td =>
        exact ⟨[TagResponse.genericError "PERMISSION_DENIED"], [],
               by simp [addTag, hperm], by simp, by simp⟩
  · intro hget hperm
    exact ⟨by simp [updateTag, hget, hperm], rfl⟩
  · intro htid hget hperm
    exact ⟨by simp [deleteTag, htid, hget, hperm], rfl⟩

theorem permission_denied_no_mutation_witness :
    (∃ responses calls,
        addTag permDeny
            { user := some sampleUser, organization := some sampleOrg,
              project := some sampleProject, roles := [] }
            (some { name := some "n" }) [ownTag] "t9"
          = (responses, [ownTag], calls)
        ∧ TagResponse.genericError "PERMISSION_DENIED" ∈ responses
        ∧ ∀ c ∈ calls, mutatingCall c = false)
    ∧ (deleteTag permDeny
          { user := some sampleUser, organization := some sampleOrg,
            project := some sampleProject, roles := [] }
          (some "t2") [ownTag]
        = ([TagResponse.genericError "PERMISSION_DENIED"], [ownTag],
           [ServiceCall.getTagByIdCall "t2"])
        ∧ mutatingCall (ServiceCall.getTagByIdCall "t2") = false) :=
  ⟨(permission_denied_no_mutation permDeny sampleUser sampleOrg sampleProject
      [] (some { name := some "n" }) "t9" "t2" {} [ownTag] ownTag).1 rfl,
   (permission_denied_no_mutation permDeny sampleUser sampleOrg sampleProject
      [] (some { name := some "n" }) "t9" "t2" {} [ownTag] ownTag).2.2
      (by decide) rfl rfl⟩

/-- C4: in `addTag`, an absent `tagData` body does not return early: the
missing-data error response is emitted and execution still reaches the
permission check, whose verdict decides between `PERMISSION_DENIED` and the
`createTag` call. -/
theorem missing_tagData_reaches_permission_check :
    ∀ (hasPermission : HasPermission) (u : User) (org : OrganizationDocument)
      (proj : Project) (roles : List String) (db : TagDb) (newId : String),
      (hasPermission roles "tag:admin"
          { locals := { user := some u, organization := some org,
                        project := some proj, roles := roles },
            targetTags := [buildTagData u org proj Option.none] } = false →
        addTag hasPermission
            { user := some u, organization := some org,
              project := some proj, roles := roles }
            Option.none db newId
          = ([TagResponse.genericError "PROJECT_DATA_NOT_FOUND",
              TagResponse.genericError "PERMISSION_DENIED"], db, []))
      ∧ (hasPermission roles "tag:admin"
          { locals := { user := some u, organization := some org,
                        project := some proj, roles := roles },
            targetTags := [buildTagData u org proj Option.none] } = true →
        addTag hasPermission
            { user := some u, organization := some org,
              project := some proj, roles := roles }
            Option.none db newId
          = ([TagResponse.genericError "PROJECT_DATA_NOT_FOUND",
              TagResponse.jsonTag
                (createTag db (buildTagData u org proj Option.none) newId).1],
             (createTag db (buildTagData u org proj Option.none) newId).2,
             [ServiceCall.createTagCall (buildTagData u org proj Option.none)])) := by
  intro hp u org proj roles db newId
  constructor
  · intro hperm
    simp [addTag, hperm]
  · intro hperm
    simp [addTag, hperm]

theorem missing_tagData_reaches_permission_check_witness :
    addTag permDeny
        { user := some sampleUser, organization := some sampleOrg,
          project := some sampleProject, roles := [] }
        Option.none [ownTag] "t9"
      = ([TagResponse.genericError "PROJECT_DATA_NOT_FOUND",
          TagResponse.genericError "PERMISSION_DENIED"], [ownTag], [])
    ∧ addTag permAllow
        { user := some sampleUser, organization := some sampleOrg,
          project := some sampleProject, roles := [] }
        Option.none [ownTag] "t9"
      = ([TagResponse.genericError "PROJECT_DATA_NOT_FOUND",
          TagResponse.jsonTag
            (createTag [ownTag] (buildTagData sampleUser sampleOrg sampleProject Option.none) "t9").1],
         (createTag [ownTag] (buildTagData sampleUser sampleOrg sampleProject Option.none) "t9").2,
         [ServiceCall.createTagCall (buildTagData sampleUser sampleOrg sampleProject Option.none)]) :=
  ⟨(missing_tagData_reaches_permission_check permDeny sampleUser sampleOrg
      sampleProject [] [ownTag] "t9").1 rfl,
   (missing_tagData_reaches_permission_check permAllow sampleUser sampleOrg
      sampleProject [] [ownTag] "t9").2 rfl⟩
